import Mathlib

/-!
Shallow embedding of the `audio_switcher` repository (a Windows Bluetooth
enumeration tool) and proofs about its specification claims.

Strings are modelled as lists of Unicode code points (`List Nat`), UTF-16
buffers as lists of 16-bit units (`List Nat`), and calls into the Win32 API
as an oracle record supplying the values the OS would return, together with
an explicit trace of the OS calls the code performs.
-/

namespace AudioSwitcher

/-! ## src/bluetooth/util.rs -/

/-- Rust `String::from_utf16_lossy`: decode UTF-16 units into code points,
pairing a high surrogate with a following low surrogate, and replacing any
unpaired surrogate with U+FFFD. A high surrogate followed by a non-low unit
yields U+FFFD without consuming the following unit. -/
def utf16LossyDecode : List Nat → List Nat
  | [] => []
  | [u] =>
      if u < 0xD800 ∨ 0xDFFF < u then [u] else [0xFFFD]
  | u :: u2 :: rest =>
      if u < 0xD800 ∨ 0xDFFF < u then
        u :: utf16LossyDecode (u2 :: rest)
      else if u ≤ 0xDBFF then
        if 0xDC00 ≤ u2 ∧ u2 ≤ 0xDFFF then
          (0x10000 + (u - 0xD800) * 0x400 + (u2 - 0xDC00)) :: utf16LossyDecode rest
        else
          0xFFFD :: utf16LossyDecode (u2 :: rest)
      else
        0xFFFD :: utf16LossyDecode (u2 :: rest)

/-- Rust `str::trim_matches(char::from(0))`: remove every leading and every
trailing NUL code point, keeping the interior intact. -/
def trimNulBoth (s : List Nat) : List Nat :=
  (((s.dropWhile (· = 0)).reverse.dropWhile (· = 0))).reverse

/-- `u16_slice_to_string` from src/bluetooth/util.rs:
`String::from_utf16_lossy(slice).trim_matches(char::from(0)).to_string()`. -/
def u16_slice_to_string (slice : List Nat) : List Nat :=
  trimNulBoth (utf16LossyDecode slice)

/-! ## src/bluetooth/mod.rs : SYSTEMTIME → Time -/

/-- The Win32 `SYSTEMTIME` record; every field is a `u16`. -/
structure SYSTEMTIME where
  wYear : Nat
  wMonth : Nat
  wDayOfWeek : Nat
  wDay : Nat
  wHour : Nat
  wMinute : Nat
  wSecond : Nat
  wMilliseconds : Nat
deriving DecidableEq, Repr

/-- The `Time` wrapper around `chrono::NaiveDateTime`, modelled by its
calendar fields. -/
structure Time where
  year : Nat
  month : Nat
  day : Nat
  hour : Nat
  minute : Nat
  second : Nat
deriving DecidableEq, Repr

/-- Proleptic-Gregorian leap year, as `chrono` uses. -/
def isLeapYear (y : Nat) : Bool :=
  y % 4 = 0 ∧ (y % 100 ≠ 0 ∨ y % 400 = 0)

/-- Days in a month of a given year, as `chrono` uses. -/
def daysInMonth (y m : Nat) : Nat :=
  if m = 1 then 31
  else if m = 2 then (if isLeapYear y then 29 else 28)
  else if m = 3 then 31
  else if m = 4 then 30
  else if m = 5 then 31
  else if m = 6 then 30
  else if m = 7 then 31
  else if m = 8 then 31
  else if m = 9 then 30
  else if m = 10 then 31
  else if m = 11 then 30
  else 31

/-- `Into<Time> for SYSTEMTIME` from src/bluetooth/mod.rs:
`NaiveDate::from_ymd_opt(..).unwrap().and_hms_opt(..).unwrap()`. The two
`unwrap`s panic when `chrono` rejects the fields; panic is modelled as
`none`. `from_ymd_opt` accepts 1 ≤ month ≤ 12 and 1 ≤ day ≤ days of the
month (every `u16` year is within chrono's year range); `and_hms_opt`
accepts hour ≤ 23, minute ≤ 59, second ≤ 59. -/
def systemtimeToTime (st : SYSTEMTIME) : Option Time :=
  if 1 ≤ st.wMonth ∧ st.wMonth ≤ 12 ∧ 1 ≤ st.wDay ∧ st.wDay ≤ daysInMonth st.wYear st.wMonth then
    if st.wHour ≤ 23 ∧ st.wMinute ≤ 59 ∧ st.wSecond ≤ 59 then
      some ⟨st.wYear, st.wMonth, st.wDay, st.wHour, st.wMinute, st.wSecond⟩
    else none
  else none

/-! ## src/bluetooth/device.rs : data model -/

/-- The possible Bluetooth device classes (src/bluetooth/device.rs). -/
inductive DeviceClass where
  | Headset
  | Microphone
  | Speaker
  | Headphones
  | Other
deriving DecidableEq, Repr

/-- `from_class_identifier` from src/bluetooth/device.rs: a hardcoded
partial lookup on the 32-bit class identifier. -/
def from_class_identifier (identifier : Nat) : DeviceClass :=
  if identifier = 2360340 then DeviceClass.Speaker
  else if identifier = 2360344 then DeviceClass.Headphones
  else DeviceClass.Other

/-- The Win32 `BLUETOOTH_ADDRESS` union, whose `rgBytes` view is 6 `u8`s in
reverse (wire) order. -/
structure BLUETOOTH_ADDRESS where
  rgBytes : List Nat
deriving DecidableEq, Repr

/-- The `Address` value object: a Bluetooth address as a vector of bytes. -/
structure Address where
  address : List Nat
deriving DecidableEq, Repr

/-- `From<BLUETOOTH_ADDRESS> for Address`: copy `rgBytes` and reverse it. -/
def addressFrom (value : BLUETOOTH_ADDRESS) : Address :=
  ⟨value.rgBytes.reverse⟩

/-- One lowercase hexadecimal digit. -/
def hexDigit (n : Nat) : Char :=
  if n < 10 then Char.ofNat (48 + n) else Char.ofNat (87 + n)

/-- The hexadecimal digits of `n`, most significant first (empty for 0),
computed with a structural fuel argument (`fuel ≥ n` suffices, since the
value shrinks by a factor of 16 each step). -/
def hexDigitsAux : Nat → Nat → List Char
  | 0, _ => []
  | _ + 1, 0 => []
  | fuel + 1, n => hexDigitsAux fuel (n / 16) ++ [hexDigit (n % 16)]

/-- The hexadecimal digits of `n`, most significant first (empty for 0). -/
def hexDigits (n : Nat) : List Char :=
  hexDigitsAux n n

/-- Rust's `format!("{:02x}", v)`: lowercase hex, zero-padded to width 2. -/
def formatHex02 (n : Nat) : List Char :=
  let ds := if n = 0 then ['0'] else hexDigits n
  if ds.length < 2 then List.replicate (2 - ds.length) '0' ++ ds else ds

/-- Rust's `Vec::join(":")` on a list of strings. -/
def joinColon : List (List Char) → List Char
  | [] => []
  | [x] => x
  | x :: y :: xs => x ++ ':' :: joinColon (y :: xs)

/-- `Address::to_string`: each byte as a two-digit lowercase hex pair,
joined by ':'. -/
def Address.to_string (a : Address) : List Char :=
  joinColon (a.address.map formatHex02)

/-- The fields of the Win32 `BLUETOOTH_DEVICE_INFO` record that the code
reads (`dwSize` is only ever set to the struct size). Booleans stand for
the Win32 `BOOL` flags. -/
structure BLUETOOTH_DEVICE_INFO where
  ulClassofDevice : Nat
  Address : BLUETOOTH_ADDRESS
  fConnected : Bool
  fRemembered : Bool
  fAuthenticated : Bool
  szName : List Nat
  stLastSeen : SYSTEMTIME
  stLastUsed : SYSTEMTIME
deriving DecidableEq, Repr

/-- The `Device` value object from src/bluetooth/device.rs; `device_info`
is the private cached copy of the raw record. -/
structure Device where
  «class» : DeviceClass
  address : Address
  connected : Bool
  remembered : Bool
  authenticated : Bool
  name : List Nat
  last_seen : Time
  last_connected : Time
  device_info : BLUETOOTH_DEVICE_INFO
deriving DecidableEq, Repr

/-- `Mode` from src/bluetooth/device.rs. -/
inductive Mode where
  | Enable
  | Disable
deriving DecidableEq, Repr

/-- The errors of src/bluetooth/error.rs. -/
inductive Error where
  | NoDevicesFound
  | NoRadiosFound
deriving DecidableEq, Repr

/-- The error enum of src/main.rs. -/
inductive BluetoothError where
  | NoDevicesFound
deriving DecidableEq, Repr

/-- The Win32 calls the embedded code performs, recorded as a trace. -/
inductive OsEvent where
  | findFirstDevice
  | findNextDevice (cursor : Nat)
  | findDeviceClose (cursor : Nat)
  | findFirstRadio
  | getRadioInfo (radio : Nat)
  | findRadioClose (cursor : Nat)
  | closeHandle (handle : Nat)
deriving DecidableEq, Repr

/-- `Into<Device> for BLUETOOTH_DEVICE_INFO`: build every field from the
corresponding raw field. The two timestamp conversions can panic
(modelled by `Option`). -/
def intoDevice (info : BLUETOOTH_DEVICE_INFO) : Option Device := do
  let ls ← systemtimeToTime info.stLastSeen
  let lc ← systemtimeToTime info.stLastUsed
  some
    { «class» := from_class_identifier info.ulClassofDevice
      address := addressFrom info.Address
      connected := info.fConnected
      remembered := info.fRemembered
      authenticated := info.fAuthenticated
      name := u16_slice_to_string info.szName
      last_seen := ls
      last_connected := lc
      device_info := info }

/-- `Device::set_service_state` from src/bluetooth/device.rs: the body is
empty (the `BluetoothSetServiceState` call is commented out), so it
returns unit and performs no OS call. -/
def Device.set_service_state (_self : Device) (_service_guid : List Char) (_mode : Mode) :
    Unit × List OsEvent :=
  ((), [])

/-- The conversions the find-first/find-next loop performs, in cursor
order: one `device_info.into()` per record handed over by the OS (`none`
as soon as one panics). -/
def intoDevicesAll : List BLUETOOTH_DEVICE_INFO → Option (List Device)
  | [] => some []
  | i :: is =>
      match intoDevice i, intoDevicesAll is with
      | some d, some ds => some (d :: ds)
      | _, _ => none

/-- What the OS returns to the device-search calls: the cursor handle
`BluetoothFindFirstDevice` yields (0 = null), the record it writes, and
the records written by each succeeding `BluetoothFindNextDevice` call
(after which one further call returns false). -/
structure DeviceSearchOracle where
  firstHandle : Nat
  firstInfo : BLUETOOTH_DEVICE_INFO
  nextInfos : List BLUETOOTH_DEVICE_INFO
deriving DecidableEq, Repr

/-- `get_bluetooth_devices` from src/bluetooth/device.rs: find-first, then
push one device per successful find-next, then `BluetoothFindDeviceClose`.
The result is paired with the trace of OS calls; `none` models a panic in
a timestamp conversion. -/
def getBluetoothDevices (o : DeviceSearchOracle) :
    Option (Except Error (List Device) × List OsEvent) :=
  if o.firstHandle = 0 then
    some (Except.error Error.NoDevicesFound, [OsEvent.findFirstDevice])
  else
    match intoDevicesAll (o.firstInfo :: o.nextInfos) with
    | none => none
    | some devs =>
        some (Except.ok devs,
          OsEvent.findFirstDevice ::
            (List.replicate (o.nextInfos.length + 1) (OsEvent.findNextDevice o.firstHandle) ++
              [OsEvent.findDeviceClose o.firstHandle]))

/-- The `BluetoothDevice` value object of src/main.rs: the same public
fields as `Device`, without the cached raw record. -/
structure BluetoothDevice where
  «class» : DeviceClass
  address : Address
  connected : Bool
  remembered : Bool
  authenticated : Bool
  name : List Nat
  last_seen : Time
  last_connected : Time
deriving DecidableEq, Repr

/-- `Into<BluetoothDevice> for BLUETOOTH_DEVICE_INFO` from src/main.rs. -/
def intoBluetoothDevice (info : BLUETOOTH_DEVICE_INFO) : Option BluetoothDevice := do
  let ls ← systemtimeToTime info.stLastSeen
  let lc ← systemtimeToTime info.stLastUsed
  some
    { «class» := from_class_identifier info.ulClassofDevice
      address := addressFrom info.Address
      connected := info.fConnected
      remembered := info.fRemembered
      authenticated := info.fAuthenticated
      name := u16_slice_to_string info.szName
      last_seen := ls
      last_connected := lc }

/-- The conversions src/main.rs's loop performs, in cursor order. -/
def intoBluetoothDevicesAll : List BLUETOOTH_DEVICE_INFO → Option (List BluetoothDevice)
  | [] => some []
  | i :: is =>
      match intoBluetoothDevice i, intoBluetoothDevicesAll is with
      | some d, some ds => some (d :: ds)
      | _, _ => none

/-- `get_bluetooth_devices` from src/main.rs (the copy the program's entry
point calls): identical search loop, but it returns without ever calling
`BluetoothFindDeviceClose`. -/
def mainGetBluetoothDevices (o : DeviceSearchOracle) :
    Option (Except BluetoothError (List BluetoothDevice) × List OsEvent) :=
  if o.firstHandle = 0 then
    some (Except.error BluetoothError.NoDevicesFound, [OsEvent.findFirstDevice])
  else
    match intoBluetoothDevicesAll (o.firstInfo :: o.nextInfos) with
    | none => none
    | some devs =>
        some (Except.ok devs,
          OsEvent.findFirstDevice ::
            List.replicate (o.nextInfos.length + 1) (OsEvent.findNextDevice o.firstHandle))

/-! ## src/bluetooth/radio.rs -/

/-- The `Radio` value object: a name and the OS radio handle. -/
structure Radio where
  name : List Nat
  handle : Nat
deriving DecidableEq, Repr

/-- What the OS returns to the radio-search calls: the find-cursor handle
`BluetoothFindFirstRadio` yields (0 = null), the radio handle it writes,
and the `szName` UTF-16 buffer `BluetoothGetRadioInfo` fills in. -/
structure RadioSearchOracle where
  findHandle : Nat
  radioHandle : Nat
  szName : List Nat
deriving DecidableEq, Repr

/-- `get_bluetooth_radio` from src/bluetooth/radio.rs: find-first-radio,
then get-radio-info, then `BluetoothFindRadioClose` on the find cursor,
returning the radio handle and its decoded name. -/
def getBluetoothRadio (o : RadioSearchOracle) : Except Error Radio × List OsEvent :=
  if o.findHandle = 0 then
    (Except.error Error.NoRadiosFound, [OsEvent.findFirstRadio])
  else
    (Except.ok { handle := o.radioHandle, name := u16_slice_to_string o.szName },
      [OsEvent.findFirstRadio, OsEvent.getRadioInfo o.radioHandle,
        OsEvent.findRadioClose o.findHandle])

/-- `Drop for Radio` from src/bluetooth/radio.rs: `CloseHandle(self.handle)`,
run exactly once when the value is dropped. -/
def Radio.dropTrace (r : Radio) : List OsEvent :=
  [OsEvent.closeHandle r.handle]

/-! ## Concrete inputs used by the witnesses -/

/-- A `SYSTEMTIME` that chrono accepts. -/
def stValid : SYSTEMTIME := ⟨2024, 1, 2, 15, 10, 30, 45, 0⟩

/-- A concrete raw device record with valid timestamps. -/
def infoOne : BLUETOOTH_DEVICE_INFO :=
  { ulClassofDevice := 2360340
    Address := ⟨[0x66, 0x55, 0x44, 0x33, 0x22, 0x11]⟩
    fConnected := true
    fRemembered := false
    fAuthenticated := true
    szName := [0x68, 0x69, 0, 0]
    stLastSeen := stValid
    stLastUsed := stValid }

/-- An OS state in which find-first-device succeeds (cursor 1) and
find-next immediately reports no further device. -/
def devOracleOne : DeviceSearchOracle := ⟨1, infoOne, []⟩

/-- An OS state in which find-first-radio succeeds. -/
def radioOracleOne : RadioSearchOracle := ⟨1, 7, [0x68, 0x69, 0, 0]⟩

/-- The sixteen lowercase hexadecimal digit characters. -/
def hexCharList : List Char :=
  String.toList "0123456789abcdef"

end AudioSwitcher

deriving instance DecidableEq for Except

namespace AudioSwitcher

/-! ## Theorems -/

/-- C3: the device-class lookup is a partial, hardcoded mapping:
`from_class_identifier` maps 2360340 to `Speaker`, 2360344 to `Headphones`,
and every other 32-bit identifier to `Other`; no input yields `Headset` or
`Microphone`. -/
theorem from_class_identifier_partial_lookup (n : Nat) (hn : n < 4294967296) :
    from_class_identifier 2360340 = DeviceClass.Speaker ∧
    from_class_identifier 2360344 = DeviceClass.Headphones ∧
    from_class_identifier n ≠ DeviceClass.Headset ∧
    from_class_identifier n ≠ DeviceClass.Microphone ∧
    (n ≠ 2360340 → n ≠ 2360344 → from_class_identifier n = DeviceClass.Other) := by
  refine ⟨by norm_num [from_class_identifier], by norm_num [from_class_identifier], ?_, ?_, ?_⟩
  · unfold from_class_identifier; split_ifs <;> simp
  · unfold from_class_identifier; split_ifs <;> simp
  · intro h1 h2; simp [from_class_identifier, h1, h2]

/-- Witness for C3 at the concrete identifier 7. -/
theorem from_class_identifier_partial_lookup_witness :
    7 < 4294967296 ∧
      (from_class_identifier 2360340 = DeviceClass.Speaker ∧
        from_class_identifier 2360344 = DeviceClass.Headphones ∧
        from_class_identifier 7 ≠ DeviceClass.Headset ∧
        from_class_identifier 7 ≠ DeviceClass.Microphone ∧
        (7 ≠ 2360340 → 7 ≠ 2360344 → from_class_identifier 7 = DeviceClass.Other)) :=
  ⟨by decide, from_class_identifier_partial_lookup 7 (by decide)⟩

/-- C7: `Device::set_service_state` is a no-op: for every device, service
GUID string and mode it performs no OS call and returns unit. -/
theorem set_service_state_noop (d : Device) (g : List Char) (m : Mode) :
    Device.set_service_state d g m = ((), []) := rfl

/-- C10: the `SYSTEMTIME → Time` conversion is partial: it succeeds exactly
when the year/month/day and hour/minute/second fields form a valid calendar
date and time, and on the all-zero `SYSTEMTIME` (month and day 0, reachable
from the OS) it panics (modelled by `none`) instead of returning an error. -/
theorem systemtime_into_time_partial :
    (∀ st : SYSTEMTIME,
        (systemtimeToTime st).isSome ↔
          (1 ≤ st.wMonth ∧ st.wMonth ≤ 12 ∧
            1 ≤ st.wDay ∧ st.wDay ≤ daysInMonth st.wYear st.wMonth ∧
            st.wHour ≤ 23 ∧ st.wMinute ≤ 59 ∧ st.wSecond ≤ 59)) ∧
    systemtimeToTime ⟨0, 0, 0, 0, 0, 0, 0, 0⟩ = none := by
  refine ⟨fun st => ?_, rfl⟩
  unfold systemtimeToTime
  split_ifs with h1 h2 <;> simp <;> omega

/-- C6: `get_bluetooth_radio` returns `NoRadiosFound` exactly when the
find-first-radio call yields a null find handle, and otherwise returns `Ok`
with one `Radio` carrying the first radio's handle and its name decoded
from the radio-info UTF-16 buffer. -/
theorem get_bluetooth_radio_spec (o : RadioSearchOracle) :
    ((getBluetoothRadio o).1 = Except.error Error.NoRadiosFound ↔ o.findHandle = 0) ∧
    (o.findHandle ≠ 0 →
      (getBluetoothRadio o).1 =
        Except.ok { handle := o.radioHandle, name := u16_slice_to_string o.szName }) := by
  unfold getBluetoothRadio
  split_ifs with h <;> simp [h]

/-- C5: on a successful search, `get_bluetooth_radio` closes its radio-find
cursor exactly once before returning and never closes the radio handle
itself; the radio handle is closed exactly once, by `Drop for Radio`. -/
theorem radio_handle_closed_once (o : RadioSearchOracle) (h : o.findHandle ≠ 0) :
    (getBluetoothRadio o).2.count (OsEvent.findRadioClose o.findHandle) = 1 ∧
    (∀ n, OsEvent.closeHandle n ∉ (getBluetoothRadio o).2) ∧
    (∀ rad, (getBluetoothRadio o).1 = Except.ok rad →
      rad.dropTrace = [OsEvent.closeHandle rad.handle]) := by
  unfold getBluetoothRadio
  simp [h, Radio.dropTrace, List.count_cons]

/-- Witness for C5 at a concrete oracle whose find-first-radio succeeds. -/
theorem radio_handle_closed_once_witness :
    radioOracleOne.findHandle ≠ 0 ∧
      ((getBluetoothRadio radioOracleOne).2.count
          (OsEvent.findRadioClose radioOracleOne.findHandle) = 1 ∧
        (∀ n, OsEvent.closeHandle n ∉ (getBluetoothRadio radioOracleOne).2) ∧
        (∀ rad, (getBluetoothRadio radioOracleOne).1 = Except.ok rad →
          rad.dropTrace = [OsEvent.closeHandle rad.handle])) :=
  ⟨by decide, radio_handle_closed_once radioOracleOne (by decide)⟩

/-- A successful conversion of the whole cursor list yields one device per
raw record. -/
theorem intoDevicesAll_length (l : List BLUETOOTH_DEVICE_INFO) (ds : List Device)
    (h : intoDevicesAll l = some ds) : ds.length = l.length := by
  induction l generalizing ds with
  | nil =>
      simp only [intoDevicesAll, Option.some.injEq] at h
      simp [← h]
  | cons i is ih =>
      simp only [intoDevicesAll] at h
      cases hi : intoDevice i <;> rw [hi] at h
      · exact absurd h (by simp)
      · cases his : intoDevicesAll is <;> rw [his] at h
        · exact absurd h (by simp)
        · simp only [Option.some.injEq] at h
          simp [← h, ih _ his]

/-- C1: `get_bluetooth_devices` returns `NoDevicesFound` exactly when the
find-first-device call yields a null cursor, and otherwise returns `Ok`
with a non-empty list: the first call's device followed by one device per
successful find-next call, in cursor order. -/
theorem get_bluetooth_devices_spec (o : DeviceSearchOracle)
    (r : Except Error (List Device)) (tr : List OsEvent)
    (h : getBluetoothDevices o = some (r, tr)) :
    (r = Except.error Error.NoDevicesFound ↔ o.firstHandle = 0) ∧
    (o.firstHandle ≠ 0 →
      ∃ devs, r = Except.ok devs ∧ devs ≠ [] ∧
        devs.length = o.nextInfos.length + 1 ∧
        intoDevicesAll (o.firstInfo :: o.nextInfos) = some devs) := by
  unfold getBluetoothDevices at h
  split_ifs at h with h0
  · simp only [Option.some.injEq, Prod.mk.injEq] at h
    obtain ⟨hr, -⟩ := h
    subst hr
    exact ⟨by simp [h0], fun hne => absurd h0 hne⟩
  · cases hall : intoDevicesAll (o.firstInfo :: o.nextInfos) <;> rw [hall] at h
    · exact absurd h (by simp)
    · rename_i devs
      simp only [Option.some.injEq, Prod.mk.injEq] at h
      obtain ⟨hr, -⟩ := h
      subst hr
      have hlen : devs.length = o.nextInfos.length + 1 := by
        simpa using intoDevicesAll_length _ _ hall
      refine ⟨by simp [h0], fun _ => ⟨devs, rfl, ?_, hlen, rfl⟩⟩
      exact List.length_pos.mp (by omega)

/-- Witness for C1 at a concrete oracle with cursor handle 1 and one
device. -/
theorem get_bluetooth_devices_spec_witness :
    ∃ r tr, getBluetoothDevices devOracleOne = some (r, tr) ∧
      ((r = Except.error Error.NoDevicesFound ↔ devOracleOne.firstHandle = 0) ∧
        (devOracleOne.firstHandle ≠ 0 →
          ∃ devs, r = Except.ok devs ∧ devs ≠ [] ∧
            devs.length = devOracleOne.nextInfos.length + 1 ∧
            intoDevicesAll (devOracleOne.firstInfo :: devOracleOne.nextInfos) = some devs)) := by
  rcases hc : getBluetoothDevices devOracleOne with - | ⟨r, tr⟩
  · exact absurd hc (by decide)
  · exact ⟨r, tr, rfl, get_bluetooth_devices_spec devOracleOne r tr hc⟩

/-- C2: the conversion from a raw `BLUETOOTH_DEVICE_INFO` to `Device` sets
every public field from the corresponding raw field: class via the lookup,
address from the address bytes, name from the UTF-16 buffer, the three
booleans from the flags, and the two timestamps from `stLastSeen` and
`stLastUsed`. -/
theorem into_device_sets_every_field (info : BLUETOOTH_DEVICE_INFO) (d : Device)
    (h : intoDevice info = some d) :
    d.«class» = from_class_identifier info.ulClassofDevice ∧
    d.address = addressFrom info.Address ∧
    d.name = u16_slice_to_string info.szName ∧
    d.connected = info.fConnected ∧
    d.remembered = info.fRemembered ∧
    d.authenticated = info.fAuthenticated ∧
    systemtimeToTime info.stLastSeen = some d.last_seen ∧
    systemtimeToTime info.stLastUsed = some d.last_connected := by
  unfold intoDevice at h
  cases hls : systemtimeToTime info.stLastSeen <;> rw [hls] at h
  · exact absurd h (by simp)
  · cases hlc : systemtimeToTime info.stLastUsed <;> rw [hlc] at h
    · exact absurd h (by simp)
    · simp at h
      subst h
      simp_all

/-- Witness for C2 at a concrete raw record with valid timestamps. -/
theorem into_device_sets_every_field_witness :
    ∃ d, intoDevice infoOne = some d ∧
      (d.«class» = from_class_identifier infoOne.ulClassofDevice ∧
        d.address = addressFrom infoOne.Address ∧
        d.name = u16_slice_to_string infoOne.szName ∧
        d.connected = infoOne.fConnected ∧
        d.remembered = infoOne.fRemembered ∧
        d.authenticated = infoOne.fAuthenticated ∧
        systemtimeToTime infoOne.stLastSeen = some d.last_seen ∧
        systemtimeToTime infoOne.stLastUsed = some d.last_connected) := by
  rcases hc : intoDevice infoOne with - | d
  · exact absurd hc (by decide)
  · exact ⟨d, rfl, into_device_sets_every_field infoOne d hc⟩

/-- C4 (failing part of the claim): at an OS state where find-first-device
succeeds with cursor handle 1, the `get_bluetooth_devices` of src/main.rs —
the copy the program's entry point calls — returns without ever emitting a
`BluetoothFindDeviceClose` call, while the src/bluetooth/device.rs copy
closes the cursor exactly once after the find-next loop. -/
theorem main_get_bluetooth_devices_never_closes_cursor :
    devOracleOne.firstHandle = 1 ∧
    (mainGetBluetoothDevices devOracleOne).map Prod.snd =
      some [OsEvent.findFirstDevice, OsEvent.findNextDevice 1] ∧
    (getBluetoothDevices devOracleOne).map Prod.snd =
      some [OsEvent.findFirstDevice, OsEvent.findNextDevice 1,
        OsEvent.findDeviceClose 1] := by
  decide

/-- Dropping leading NULs leaves a list that does not start with NUL. -/
theorem head?_dropWhile_zero (l : List Nat) :
    (l.dropWhile (· = 0)).head? ≠ some 0 := by
  induction l with
  | nil => simp
  | cons a l ih =>
      by_cases ha : a = 0
      · simpa [List.dropWhile_cons, ha] using ih
      · simp [List.dropWhile_cons, ha]

/-- Any list splits into its right-trimmed part (reverse, drop, reverse)
followed by the all-NUL suffix that was trimmed. -/
theorem reverse_trim_decomp (l : List Nat) :
    l = (l.reverse.dropWhile (· = 0)).reverse ++ (l.reverse.takeWhile (· = 0)).reverse := by
  calc l = l.reverse.reverse := (List.reverse_reverse l).symm
    _ = (l.reverse.takeWhile (· = 0) ++ l.reverse.dropWhile (· = 0)).reverse := by
        rw [List.takeWhile_append_dropWhile]
    _ = _ := by rw [List.reverse_append]

/-- The right-hand part of `trimNulBoth`: what is left of the de-NULled
prefix once the trailing NULs go. -/
theorem dropWhile_eq_trim_append (d : List Nat) :
    d.dropWhile (· = 0) =
      trimNulBoth d ++ ((d.dropWhile (· = 0)).reverse.takeWhile (· = 0)).reverse := by
  simpa [trimNulBoth] using reverse_trim_decomp (d.dropWhile (· = 0))

/-- `trimNulBoth` removes only a NUL prefix and a NUL suffix. -/
theorem trimNulBoth_decomp (d : List Nat) :
    ∃ p s, d = p ++ trimNulBoth d ++ s ∧ (∀ x ∈ p, x = 0) ∧ (∀ x ∈ s, x = 0) := by
  refine ⟨d.takeWhile (· = 0),
    ((d.dropWhile (· = 0)).reverse.takeWhile (· = 0)).reverse, ?_, ?_, ?_⟩
  · calc d = d.takeWhile (· = 0) ++ d.dropWhile (· = 0) :=
          (List.takeWhile_append_dropWhile _ _).symm
      _ = d.takeWhile (· = 0) ++
            (trimNulBoth d ++ ((d.dropWhile (· = 0)).reverse.takeWhile (· = 0)).reverse) := by
          rw [← dropWhile_eq_trim_append d]
      _ = _ := by rw [List.append_assoc]
  · intro x hx
    simpa using List.mem_takeWhile_imp hx
  · intro x hx
    rw [List.mem_reverse] at hx
    simpa using List.mem_takeWhile_imp hx

/-- The trimmed list does not start with NUL. -/
theorem trimNulBoth_head (d : List Nat) : (trimNulBoth d).head? ≠ some 0 := by
  cases hr : trimNulBoth d with
  | nil => simp
  | cons a r =>
      have key := dropWhile_eq_trim_append d
      rw [hr] at key
      have h1 : (d.dropWhile (· = 0)).head? = some a := by rw [key]; simp
      have h2 := head?_dropWhile_zero d
      rw [h1] at h2
      simpa using h2

/-- The trimmed list does not end with NUL. -/
theorem trimNulBoth_getLast (d : List Nat) : (trimNulBoth d).getLast? ≠ some 0 := by
  have h : (trimNulBoth d).getLast? =
      ((d.dropWhile (· = 0)).reverse.dropWhile (· = 0)).head? := by
    rw [trimNulBoth, List.getLast?_reverse]
  rw [h]
  exact head?_dropWhile_zero _

/-- The lossy UTF-16 decoder never emits a surrogate code point: every
surrogate is either combined into a supplementary-plane code point or
replaced with U+FFFD. -/
theorem utf16LossyDecode_no_surrogates (slice : List Nat) :
    ∀ c ∈ utf16LossyDecode slice, c < 0xD800 ∨ 0xDFFF < c := by
  induction slice using utf16LossyDecode.induct with
  | case1 => simp [utf16LossyDecode]
  | case2 u h =>
      intro c hc
      simp only [utf16LossyDecode] at hc
      rw [if_pos h] at hc
      simp only [List.mem_singleton] at hc
      omega
  | case3 u h =>
      intro c hc
      simp only [utf16LossyDecode] at hc
      rw [if_neg h] at hc
      simp only [List.mem_singleton] at hc
      omega
  | case4 u u2 rest h ih =>
      intro c hc
      simp only [utf16LossyDecode] at hc
      rw [if_pos h] at hc
      rcases List.mem_cons.mp hc with hceq | hc'
      · omega
      · exact ih c hc'
  | case5 u u2 rest h h2 h3 ih =>
      intro c hc
      simp only [utf16LossyDecode] at hc
      rw [if_neg h, if_pos h2, if_pos h3] at hc
      rcases List.mem_cons.mp hc with hceq | hc'
      · omega
      · exact ih c hc'
  | case6 u u2 rest h h2 h3 ih =>
      intro c hc
      simp only [utf16LossyDecode] at hc
      rw [if_neg h, if_pos h2, if_neg h3] at hc
      rcases List.mem_cons.mp hc with hceq | hc'
      · omega
      · exact ih c hc'
  | case7 u u2 rest h h2 ih =>
      intro c hc
      simp only [utf16LossyDecode] at hc
      rw [if_neg h, if_neg h2] at hc
      rcases List.mem_cons.mp hc with hceq | hc'
      · omega
      · exact ih c hc'

/-- C8: `u16_slice_to_string` removes only leading and trailing NULs from
the decoded UTF-16 buffer: the decoded text splits as NUL prefix ++ result
++ NUL suffix, the result neither starts nor ends with NUL (so interior
NULs are preserved), and unpaired surrogates are replaced with U+FFFD
(the decoded text holds no surrogate; a lone surrogate unit decodes to
U+FFFD) rather than causing an error. -/
theorem u16_slice_to_string_trims_only_edges (slice : List Nat) :
    (∃ p s, utf16LossyDecode slice = p ++ u16_slice_to_string slice ++ s ∧
        (∀ x ∈ p, x = 0) ∧ (∀ x ∈ s, x = 0)) ∧
    (u16_slice_to_string slice).head? ≠ some 0 ∧
    (u16_slice_to_string slice).getLast? ≠ some 0 ∧
    (∀ c ∈ utf16LossyDecode slice, c < 0xD800 ∨ 0xDFFF < c) ∧
    (∀ u, 0xD800 ≤ u → u ≤ 0xDFFF → utf16LossyDecode [u] = [0xFFFD]) := by
  refine ⟨trimNulBoth_decomp (utf16LossyDecode slice), trimNulBoth_head _,
    trimNulBoth_getLast _, utf16LossyDecode_no_surrogates slice, ?_⟩
  intro u h1 h2
  simp [utf16LossyDecode]
  omega

set_option maxRecDepth 40000 in
/-- Every byte value renders as exactly two lowercase hexadecimal digit
characters under `{:02x}` formatting. -/
theorem formatHex02_byte : ∀ b, b < 256 →
    (formatHex02 b).length = 2 ∧ ∀ c ∈ formatHex02 b, c ∈ hexCharList := by
  decide

/-- C9: converting a raw `BLUETOOTH_ADDRESS` reverses its 6 bytes (byte `i`
of the OS record appears at position `5 - i` of the `Address`), and
`Address::to_string` renders each byte as a two-digit lowercase hex pair
joined by ':' — 17 characters in all, with ':' exactly at positions
2, 5, 8, 11, 14 and a lowercase hex digit everywhere else. -/
theorem address_reversed_and_hex (raw : BLUETOOTH_ADDRESS)
    (h6 : raw.rgBytes.length = 6) (hb : ∀ b ∈ raw.rgBytes, b < 256) :
    (∀ i, i < 6 → (addressFrom raw).address[i]? = raw.rgBytes[5 - i]?) ∧
    (addressFrom raw).to_string.length = 17 ∧
    (∀ j, j ∈ ([2, 5, 8, 11, 14] : List Nat) →
      (addressFrom raw).to_string[j]? = some ':') ∧
    (∀ j, j < 17 → j ∉ ([2, 5, 8, 11, 14] : List Nat) →
      ∃ c, (addressFrom raw).to_string[j]? = some c ∧ c ∈ hexCharList) := by
  rcases raw with ⟨bytes⟩
  rcases bytes with - | ⟨b0, - | ⟨b1, - | ⟨b2, - | ⟨b3, - | ⟨b4, - | ⟨b5, rest⟩⟩⟩⟩⟩⟩ <;>
    simp only [List.length_cons, List.length_nil] at h6 <;> try omega
  have hrest : rest = [] := List.eq_nil_of_length_eq_zero (by omega)
  subst hrest
  have hb0 : b0 < 256 := hb _ (by simp)
  have hb1 : b1 < 256 := hb _ (by simp)
  have hb2 : b2 < 256 := hb _ (by simp)
  have hb3 : b3 < 256 := hb _ (by simp)
  have hb4 : b4 < 256 := hb _ (by simp)
  have hb5 : b5 < 256 := hb _ (by simp)
  obtain ⟨hL0, hM0⟩ := formatHex02_byte b0 hb0
  obtain ⟨hL1, hM1⟩ := formatHex02_byte b1 hb1
  obtain ⟨hL2, hM2⟩ := formatHex02_byte b2 hb2
  obtain ⟨hL3, hM3⟩ := formatHex02_byte b3 hb3
  obtain ⟨hL4, hM4⟩ := formatHex02_byte b4 hb4
  obtain ⟨hL5, hM5⟩ := formatHex02_byte b5 hb5
  obtain ⟨c00, c01, hc0⟩ := List.length_eq_two.mp hL0
  obtain ⟨c10, c11, hc1⟩ := List.length_eq_two.mp hL1
  obtain ⟨c20, c21, hc2⟩ := List.length_eq_two.mp hL2
  obtain ⟨c30, c31, hc3⟩ := List.length_eq_two.mp hL3
  obtain ⟨c40, c41, hc4⟩ := List.length_eq_two.mp hL4
  obtain ⟨c50, c51, hc5⟩ := List.length_eq_two.mp hL5
  have hm00 : c00 ∈ hexCharList := hM0 _ (by rw [hc0]; simp)
  have hm01 : c01 ∈ hexCharList := hM0 _ (by rw [hc0]; simp)
  have hm10 : c10 ∈ hexCharList := hM1 _ (by rw [hc1]; simp)
  have hm11 : c11 ∈ hexCharList := hM1 _ (by rw [hc1]; simp)
  have hm20 : c20 ∈ hexCharList := hM2 _ (by rw [hc2]; simp)
  have hm21 : c21 ∈ hexCharList := hM2 _ (by rw [hc2]; simp)
  have hm30 : c30 ∈ hexCharList := hM3 _ (by rw [hc3]; simp)
  have hm31 : c31 ∈ hexCharList := hM3 _ (by rw [hc3]; simp)
  have hm40 : c40 ∈ hexCharList := hM4 _ (by rw [hc4]; simp)
  have hm41 : c41 ∈ hexCharList := hM4 _ (by rw [hc4]; simp)
  have hm50 : c50 ∈ hexCharList := hM5 _ (by rw [hc5]; simp)
  have hm51 : c51 ∈ hexCharList := hM5 _ (by rw [hc5]; simp)
  have hts : (addressFrom ⟨[b0, b1, b2, b3, b4, b5]⟩).to_string =
      [c50, c51, ':', c40, c41, ':', c30, c31, ':', c20, c21, ':',
        c10, c11, ':', c00, c01] := by
    simp [addressFrom, Address.to_string, joinColon, hc0, hc1, hc2, hc3, hc4, hc5]
  refine ⟨?_, ?_, ?_, ?_⟩
  · intro i hi
    interval_cases i <;> rfl
  · rw [hts]; rfl
  · intro j hj
    fin_cases hj <;> rw [hts] <;> rfl
  · intro j hj hnot
    rw [hts]
    interval_cases j
    · exact ⟨c50, rfl, hm50⟩
    · exact ⟨c51, rfl, hm51⟩
    · exact absurd (by simp) hnot
    · exact ⟨c40, rfl, hm40⟩
    · exact ⟨c41, rfl, hm41⟩
    · exact absurd (by simp) hnot
    · exact ⟨c30, rfl, hm30⟩
    · exact ⟨c31, rfl, hm31⟩
    · exact absurd (by simp) hnot
    · exact ⟨c20, rfl, hm20⟩
    · exact ⟨c21, rfl, hm21⟩
    · exact absurd (by simp) hnot
    · exact ⟨c10, rfl, hm10⟩
    · exact ⟨c11, rfl, hm11⟩
    · exact absurd (by simp) hnot
    · exact ⟨c00, rfl, hm00⟩
    · exact ⟨c01, rfl, hm01⟩

/-- Witness for C9 at the concrete address 11:22:33:44:55:66 (raw bytes in
reverse order). -/
theorem address_reversed_and_hex_witness :
    ((⟨[0x66, 0x55, 0x44, 0x33, 0x22, 0x11]⟩ : BLUETOOTH_ADDRESS).rgBytes.length = 6 ∧
      (∀ b ∈ (⟨[0x66, 0x55, 0x44, 0x33, 0x22, 0x11]⟩ : BLUETOOTH_ADDRESS).rgBytes, b < 256)) ∧
    ((∀ i, i < 6 →
        (addressFrom ⟨[0x66, 0x55, 0x44, 0x33, 0x22, 0x11]⟩).address[i]? =
          (⟨[0x66, 0x55, 0x44, 0x33, 0x22, 0x11]⟩ : BLUETOOTH_ADDRESS).rgBytes[5 - i]?) ∧
      (addressFrom ⟨[0x66, 0x55, 0x44, 0x33, 0x22, 0x11]⟩).to_string.length = 17 ∧
      (∀ j, j ∈ ([2, 5, 8, 11, 14] : List Nat) →
        (addressFrom ⟨[0x66, 0x55, 0x44, 0x33, 0x22, 0x11]⟩).to_string[j]? = some ':') ∧
      (∀ j, j < 17 → j ∉ ([2, 5, 8, 11, 14] : List Nat) →
        ∃ c, (addressFrom ⟨[0x66, 0x55, 0x44, 0x33, 0x22, 0x11]⟩).to_string[j]? = some c ∧
          c ∈ hexCharList)) :=
  ⟨⟨by decide, by decide⟩,
    address_reversed_and_hex ⟨[0x66, 0x55, 0x44, 0x33, 0x22, 0x11]⟩ (by decide) (by decide)⟩

end AudioSwitcher
